import Mathlib

/-!
# Authentication controller (src/user/user.controller.js)

A shallow embedding of the seven request handlers of the class Controller and of
initializeRoutes.  One handler invocation is a function from the world before the
call (user collection, refresh-token cache, event log) to the world after it.
Every observable action of a handler (store lookup, store write, token issuance,
cache command, email, console output, HTTP response, call of next) is appended to
the event log in program order.

The collaborators that the controller imports or names but that are not part of
the file (validation schemas, token signer and verifier, password check, random
source, bcrypt) are fields of the record Env; the user collection and the cache
are modelled as lists.
-/

set_option autoImplicit false

namespace Controller

/-! ## Data model -/

abbrev UserId := Nat

/-- An exception value.  The field isJoi holds the outcome of the test
e.isJoi === true, the field status is the property e.status (absent = none). -/
structure Err where
  name : String
  message : String
  isJoi : Bool
  status : Option Nat
deriving DecidableEq, Repr

/-- Modelled from the spec: a document of the User model (models/user.js), with the
fields the spec lists: id, email, name, hashed password, emailToken, isVerified.
The controller only ever stores a string in emailToken. -/
structure User where
  id : UserId
  email : String
  name : String
  password : String
  emailToken : String
  isVerified : Bool
deriving DecidableEq, Repr

/-- A JSON object with string fields, as found in req.body, req.headers,
req.params and req.query. -/
abbrev Fields := List (String × String)

structure Request where
  body : Fields
  headers : Fields
  params : Fields
  query : Fields
deriving DecidableEq, Repr

/-- The values that occur in the response bodies of the controller. -/
inductive JVal where
  | bool (b : Bool)
  | str (s : String)
deriving DecidableEq, Repr

abbrev Json := List (String × JVal)

/-- The argument object of a nodemailer call; sender and recipient are its
properties from and to. -/
structure Mail where
  sender : String
  recipient : String
  subject : String
  html : String
deriving DecidableEq, Repr

/-- The filter object of a User.findOne call. -/
inductive Filter where
  | email (email : String)
  | _id (id : UserId)
  | emailToken (token : Option String)
deriving DecidableEq, Repr

/-- Observable actions of a handler, logged in program order.  The event respond
records one call of res.status(code).json(body) or res.status(code).send(body);
the event next records one call of next(e). -/
inductive Event where
  | findOne (filter : Filter)
  | save (user : User)
  | accessToken (userId : UserId) (token : String)
  | refreshToken (userId : UserId) (token : String)
  | resetPasswordToken (userId : UserId) (token : String)
  | cacheDel (key : UserId)
  | mail (m : Mail)
  | consoleLog (msg : String)
  | respond (status : Nat) (body : Json)
  | next (e : Err)
deriving DecidableEq, Repr

/-- Modelled from the spec: the cache is a flat id to token map (config/redisCon.js
is not in src); it is kept as an association list of (user id, token) entries. -/
abbrev Cache := List (UserId × String)

structure World where
  users : List User
  cache : Cache
  log : List Event
deriving DecidableEq, Repr

structure SignupResult where
  email : String
  name : String
  password : String
deriving DecidableEq, Repr

structure LoginResult where
  email : String
  password : String
deriving DecidableEq, Repr

structure ResetResult where
  password : String
deriving DecidableEq, Repr

/-- The collaborators of the controller during one invocation.  A call is able to
throw (Except) where rejecting is part of its job (validation, token verification,
reading the authorization header); client.DEL reports its error through the
callback argument (delError).  The controller uses resetPassSchema, getUser,
setResetPasswordToken, verifyResetPasswordToken and bcrypt without importing them;
they are taken as bound to functions of the types below. -/
structure Env where
  signupSchema : Fields → Except Err SignupResult
  loginSchema : Fields → Except Err LoginResult
  resetPassSchema : Fields → Except Err ResetResult
  /-- The value of crypto.randomBytes(64).toString(hex) in this invocation. -/
  randomBytes : String
  /-- The method isValidPassword of the user document (bcrypt comparison). -/
  isValidPassword : User → String → Bool
  /-- The token that setAccessToken signs for a user id. -/
  signAccessToken : UserId → String
  /-- The token that setRefreshToken signs for a user id. -/
  signRefreshToken : UserId → String
  /-- The function verifyRefreshToken: it may read the cache and either yields the
  user id of the token or throws. -/
  verifyRefreshToken : String → Cache → Except Err UserId
  /-- The error argument that the callback of client.DEL receives (none = null). -/
  delError : Option Err
  getUser : Option String → Except Err UserId
  signResetPasswordToken : UserId → String
  verifyResetPasswordToken : Option String → Except Err UserId
  genSalt : Nat → String
  hash : String → String → String
  /-- The value of process.env.NODEMAILER_USER. -/
  NODEMAILER_USER : String

/-! ## The cache -/

namespace Cache

/-- The entries stored under a key. -/
def tokensOf (c : Cache) (key : UserId) : List String :=
  (c.filter (fun p => p.1 == key)).map (fun p => p.2)

/-- Modelled from the spec: GET of the flat map. -/
def get (c : Cache) (key : UserId) : Option String :=
  (tokensOf c key).head?

/-- Modelled from the spec: DEL of the flat map removes what is stored under the key. -/
def del (c : Cache) (key : UserId) : Cache :=
  c.filter (fun p => !(p.1 == key))

/-- Modelled from the spec: SET of the flat map; the value is overwritten, not
appended. -/
def set (c : Cache) (key : UserId) (token : String) : Cache :=
  (key, token) :: del c key

end Cache

/-! ## The user collection -/

/-- Does a document match a filter object. -/
def Filter.matches (f : Filter) (u : User) : Bool :=
  match f with
  | .email e => u.email == e
  | ._id id => u.id == id
  | .emailToken (some t) => u.emailToken == t
  | .emailToken none => false

/-- Append an event to the log. -/
def World.emit (w : World) (ev : Event) : World :=
  { w with log := w.log ++ [ev] }

/-- An id that no document of the collection carries (the model of the ObjectId
that new User(...) draws). -/
def freshId (users : List User) : UserId :=
  (users.map (fun u => u.id)).foldr max 0 + 1

namespace User

/-- Modelled from the spec: User.findOne(filter) of the persistence accessor
(models/user.js is not in src): the first document that matches, or null. -/
def findOne (filter : Filter) (w : World) : Option User × World :=
  (w.users.find? (fun u => filter.matches u), w.emit (.findOne filter))

/-- Modelled from the spec: new User(result); the document gets its id at
construction, emailToken is not yet set and isVerified starts as false.  The
password field holds what the document is given; the comparison with a submitted
password is left to isValidPassword. -/
def new (result : SignupResult) (w : World) : User :=
  { id := freshId w.users, email := result.email, name := result.name,
    password := result.password, emailToken := "", isVerified := false }

/-- Modelled from the spec: user.save() of the persistence accessor: a document
whose id is in the collection replaces the stored one, any other is inserted. -/
def save (user : User) (w : World) : User × World :=
  let users :=
    if w.users.any (fun u => u.id == user.id) then
      w.users.map (fun u => if u.id == user.id then user else u)
    else w.users ++ [user]
  (user, { w with users := users, log := w.log ++ [.save user] })

end User

/-! ## Token service, mailer, response object -/

/-- Modelled from the spec: setAccessToken of jwt/configJWT.js (not in src): the
access token is not persisted, it is derived from the user id. -/
def setAccessToken (env : Env) (userId : UserId) (w : World) : String × World :=
  let token := env.signAccessToken userId
  (token, w.emit (.accessToken userId token))

/-- Modelled from the spec: setRefreshToken of jwt/configJWT.js (not in src): the
signed refresh token is stored in the cache under the user id. -/
def setRefreshToken (env : Env) (userId : UserId) (w : World) : String × World :=
  let token := env.signRefreshToken userId
  (token, { w with cache := Cache.set w.cache userId token,
                   log := w.log ++ [.refreshToken userId token] })

/-- The function setResetPasswordToken, which the controller calls without
importing it: it signs a token for a user id. -/
def setResetPasswordToken (env : Env) (userId : UserId) (w : World) : String × World :=
  let token := env.signResetPasswordToken userId
  (token, w.emit (.resetPasswordToken userId token))

def nodemailer (m : Mail) (w : World) : World :=
  w.emit (.mail m)

/-- One call of res.status(code).json(body) or res.status(code).send(body). -/
def respond (status : Nat) (body : Json) (w : World) : World :=
  w.emit (.respond status body)

def next (e : Err) (w : World) : World :=
  w.emit (.next e)

/-- The test !refreshToken on a body field: undefined and the empty string are falsy. -/
def falsy (v : Option String) : Bool :=
  match v with
  | none => true
  | some s => s == ""

/-- The catch block of register, login and resetPassword:
if (e.isJoi === true) e.status = 422; next(e). -/
def catchJoi (r : World × Option Err) : World :=
  match r.2 with
  | none => r.1
  | some e => next (if e.isJoi = true then { e with status := some 422 } else e) r.1

/-- The catch block of the other handlers: next(e). -/
def catchNext (r : World × Option Err) : World :=
  match r.2 with
  | none => r.1
  | some e => next e r.1

/-! ## Handlers -/

/-- The path of the link in the activation email. -/
def activationPath : String := "/api/v1/auth/verify"

/-- The href of the link in the activation email:
http://HOST/api/v1/auth/verify?token=EMAILTOKEN. -/
def activationHref (host emailToken : String) : String :=
  "http://" ++ host ++ activationPath ++ "?token=" ++ emailToken

/-- The value of a header inside a template string (undefined prints as such). -/
def templ (v : Option String) : String :=
  v.getD "undefined"

def activationHtml (name href : String) : String :=
  "<h2> Welcome, " ++ name ++ "!</h2>\n      <br/>\n          <p>Thank you for registering, you are almost done. Please read the below message to continue.</p>\n          <br/>\n         <p>In order to confirm your email, kindly click the verification link below.</p>\n          <br/>\n        <a href=\"" ++ href ++ "\">Click here to verify</a>"

/-- The try block of register; the second component is the error thrown, if any. -/
def registerTry (env : Env) (req : Request) (w : World) : World × Option Err :=
  match env.signupSchema req.body with
  | .error e => (w, some e)
  | .ok result =>
    let newToken := env.randomBytes
    let (existing, w) := User.findOne (.email result.email) w
    match existing with
    | some _ =>
      (respond 409 [("success", .bool false), ("error", .str "Conflict"),
        ("message", .str (" " ++ result.email ++ " has already been registered"))] w, none)
    | none =>
      let user := User.new result w
      let user := { user with emailToken := newToken }
      let (savedUser, w) := User.save user w
      let (accessToken, w) := setAccessToken env savedUser.id w
      let (refreshToken, w) := setRefreshToken env savedUser.id w
      let w := nodemailer
        { sender := env.NODEMAILER_USER, recipient := result.email, subject := "Email Verification",
          html := activationHtml result.name
            (activationHref (templ (req.headers.lookup "host")) user.emailToken) } w
      (respond 200 [("accessToken", .str accessToken), ("refreshToken", .str refreshToken)] w,
        none)

def register (env : Env) (req : Request) (w : World) : World :=
  catchJoi (registerTry env req w)

/-- The try block of login. -/
def loginTry (env : Env) (req : Request) (w : World) : World × Option Err :=
  match env.loginSchema req.body with
  | .error e => (w, some e)
  | .ok result =>
    let (user, w) := User.findOne (.email result.email) w
    match user with
    | none =>
      (respond 404 [("success", .bool false), ("error", .str "NotFound"),
        ("message", .str "User Not found")] w, none)
    | some user =>
      let isMatch := env.isValidPassword user result.password
      if isMatch = false then
        (respond 401 [("error", .str "Unauthorized"),
          ("message", .str "Invalid Email or Password")] w, none)
      else
        let (accessToken, w) := setAccessToken env user.id w
        let (refreshToken, w) := setRefreshToken env user.id w
        (respond 200 [("accessToken", .str accessToken), ("refreshToken", .str refreshToken)] w,
          none)

def login (env : Env) (req : Request) (w : World) : World :=
  catchJoi (loginTry env req w)

/-- The try block of refreshToken. -/
def refreshTokenTry (env : Env) (req : Request) (w : World) : World × Option Err :=
  let refreshToken := req.body.lookup "refreshToken"
  if falsy refreshToken then
    (respond 400 [("success", .bool false), ("error", .str "BadRequest"),
      ("message", .str "Cannot verify credentials")] w, none)
  else
    match env.verifyRefreshToken (refreshToken.getD "") w.cache with
    | .error e => (w, some e)
    | .ok userId =>
      let (accessToken, w) := setAccessToken env userId w
      let (refToken, w) := setRefreshToken env userId w
      (respond 200 [("accessToken", .str accessToken), ("refreshToken", .str refToken)] w, none)

def refreshToken (env : Env) (req : Request) (w : World) : World :=
  catchNext (refreshTokenTry env req w)

/-- The callback that logout hands to client.DEL; it runs when the command has
completed, after the handler has sent its response.  A command that reports an
error has not removed the entry. -/
def delCallback (env : Env) (userId : UserId) (w : World) : World :=
  match env.delError with
  | none => { w with cache := Cache.del w.cache userId }
  | some error =>
    let w := w.emit (.consoleLog error.message)
    respond 500 [("success", .bool false), ("error", .str "InternalServerError")] w

/-- The try block of logout. -/
def logoutTry (env : Env) (req : Request) (w : World) : World × Option Err :=
  let refreshToken := req.body.lookup "refreshToken"
  if falsy refreshToken then
    (respond 400 [("success", .bool false), ("error", .str "BadRequest"),
      ("message", .str "Cannot verify credentials")] w, none)
  else
    match env.verifyRefreshToken (refreshToken.getD "") w.cache with
    | .error e => (w, some e)
    | .ok userId =>
      let w := w.emit (.cacheDel userId)
      let w := respond 204 [("success", .bool true)] w
      (delCallback env userId w, none)

def logout (env : Env) (req : Request) (w : World) : World :=
  catchNext (logoutTry env req w)

def resetHtml (name host passwordToken : String) : String :=
  "<h2> Dear, " ++ name ++ ".</h2>\n            <br/>\n                <p>Your reset password link is available below.</p>\n                <br/>\n                <a href=\"http://" ++ host ++ "/api/v1/auth/resetPassword/" ++ passwordToken ++ "\">Reset</a>"

/-- The try block of forgotPassword. -/
def forgotPasswordTry (env : Env) (req : Request) (w : World) : World × Option Err :=
  let authHeader := req.headers.lookup "authorization"
  match env.getUser authHeader with
  | .error e => (w, some e)
  | .ok id =>
    let (user, w) := User.findOne (._id id) w
    match user with
    | none =>
      (respond 401 [("success", .bool false), ("error", .str "Unauthorized"),
        ("message", .str "Account Not Found")] w, none)
    | some user =>
      let (passwordToken, w) := setResetPasswordToken env user.id w
      let w := nodemailer
        { sender := env.NODEMAILER_USER, recipient := user.email, subject := "Reset Password",
          html := resetHtml user.name (templ (req.headers.lookup "host")) passwordToken } w
      (respond 200 [("success", .bool true),
        ("message", .str ("Verification email sent to " ++ user.email ++ "!"))] w, none)

def forgotPassword (env : Env) (req : Request) (w : World) : World :=
  catchNext (forgotPasswordTry env req w)

/-- The try block of resetPassword.  When the lookup finds no user the block ends
without a response and without an exception. -/
def resetPasswordTry (env : Env) (req : Request) (w : World) : World × Option Err :=
  let token := req.params.lookup "token"
  match env.resetPassSchema req.body with
  | .error e => (w, some e)
  | .ok result =>
    let authHeader := req.headers.lookup "authorization"
    match env.getUser authHeader with
    | .error e => (w, some e)
    | .ok id =>
      let (user, w) := User.findOne (._id id) w
      match user with
      | some user =>
        match env.verifyResetPasswordToken token with
        | .error e => (w, some e)
        | .ok _userId =>
          let salt := env.genSalt 10
          let hashedPassword := env.hash result.password salt
          let user := { user with password := hashedPassword }
          let (_savedUser, w) := User.save user w
          (respond 201 [("success", .bool true),
            ("message", .str "Password Successfully Updated.")] w, none)
      | none => (w, none)

def resetPassword (env : Env) (req : Request) (w : World) : World :=
  catchJoi (resetPasswordTry env req w)

/-- The try block of verifyEmail. -/
def verifyEmailTry (_env : Env) (req : Request) (w : World) : World × Option Err :=
  let token := req.query.lookup "token"
  let (user, w) := User.findOne (.emailToken token) w
  match user with
  | some user =>
    let user := { user with emailToken := "null", isVerified := true }
    let (_, w) := User.save user w
    (respond 200 [("success", .bool true),
      ("message", .str "Email Successfully Verified!")] w, none)
  | none =>
    (respond 401 [("success", .bool false), ("error", .str "Unauthorized"),
      ("message", .str "Failed to Verify Email.")] w, none)

def verifyEmail (env : Env) (req : Request) (w : World) : World :=
  catchNext (verifyEmailTry env req w)

/-! ## Routes -/

inductive Method where
  | get
  | post
  | delete
  | patch
deriving DecidableEq, Repr

/-- The handlers of the controller. -/
inductive Handler where
  | register
  | login
  | refreshToken
  | logout
  | forgotPassword
  | resetPassword
  | verifyEmail
deriving DecidableEq, Repr

structure Route where
  method : Method
  path : String
  middleware : List String
  handler : Handler
deriving DecidableEq, Repr

/-- The field this.path set by the constructor. -/
def path : String := "/auth"

/-- The routes that initializeRoutes registers on the router, in order. -/
def initializeRoutes : List Route :=
  [ { method := .post, path := path ++ "/login", middleware := [], handler := .login },
    { method := .post, path := path ++ "/register", middleware := [], handler := .register },
    { method := .post, path := path ++ "/refreshtoken", middleware := ["verifyAccessToken"],
      handler := .refreshToken },
    { method := .post, path := path ++ "/forgotpassword",
      middleware := ["verifyAccessToken", "isEmailVerified"], handler := .forgotPassword },
    { method := .delete, path := path ++ "/logout",
      middleware := ["verifyAccessToken", "isEmailVerified"], handler := .logout },
    { method := .get, path := path ++ "/verifyemail", middleware := [], handler := .verifyEmail },
    { method := .patch, path := path ++ "/resetpassword/:token", middleware := [],
      handler := .resetPassword } ]

/-- Run a handler by name. -/
def runHandler (h : Handler) (env : Env) (req : Request) (w : World) : World :=
  match h with
  | .register => register env req w
  | .login => login env req w
  | .refreshToken => refreshToken env req w
  | .logout => logout env req w
  | .forgotPassword => forgotPassword env req w
  | .resetPassword => resetPassword env req w
  | .verifyEmail => verifyEmail env req w

/-! ## Observations on the event log -/

/-- The status codes of the responses in a log, in order. -/
def statuses (log : List Event) : List Nat :=
  log.filterMap (fun ev => match ev with
    | .respond status _ => some status
    | _ => none)

/-- The errors handed to next in a log, in order. -/
def forwarded (log : List Event) : List Err :=
  log.filterMap (fun ev => match ev with
    | .next e => some e
    | _ => none)

/-- The emails sent in a log, in order. -/
def mails (log : List Event) : List Mail :=
  log.filterMap (fun ev => match ev with
    | .mail m => some m
    | _ => none)

def Event.isStoreAccess (ev : Event) : Bool :=
  match ev with
  | .findOne _ => true
  | .save _ => true
  | _ => false

def Event.isTokenIssue (ev : Event) : Bool :=
  match ev with
  | .accessToken _ _ => true
  | .refreshToken _ _ => true
  | .resetPasswordToken _ _ => true
  | _ => false

/-- The world in which a request arrives: the given collection and cache, and an
empty event log. -/
def World.start (users : List User) (cache : Cache) : World :=
  { users := users, cache := cache, log := [] }

end Controller

namespace Controller

/-- The outcome of a rejected request: the collection and the cache are as before,
the log consists of the single call next(e); in particular it holds no response,
no store access, no token and no email. -/
def ForwardedOnly (users : List User) (cache : Cache) (e : Err) (w : World) : Prop :=
  w.users = users ∧ w.cache = cache ∧ w.log = [.next e] ∧
  statuses w.log = [] ∧ w.log.any Event.isStoreAccess = false ∧
  w.log.any Event.isTokenIssue = false ∧ mails w.log = []


/-! ## A concrete environment -/

def joiError : Err :=
  { name := "ValidationError", message := "email is required", isJoi := true, status := none }

def jwtError : Err :=
  { name := "Unauthorized", message := "invalid token", isJoi := false, status := some 401 }

def redisError : Err :=
  { name := "Error", message := "connection lost", isJoi := false, status := none }

def field (fs : Fields) (key : String) : String :=
  (fs.lookup key).getD ""

/-- A sample environment: the schemas demand their fields, the password check
compares with the stored password, each verifier decodes the tokens that the
sample signers produce. -/
def sampleEnv : Env :=
  { signupSchema := fun b =>
      if b.lookup "email" = none then .error joiError
      else .ok { email := field b "email", name := field b "name",
                 password := field b "password" }
    loginSchema := fun b =>
      if b.lookup "email" = none then .error joiError
      else .ok { email := field b "email", password := field b "password" }
    resetPassSchema := fun b =>
      if b.lookup "password" = none then .error joiError
      else .ok { password := field b "password" }
    randomBytes := "c0ffee"
    isValidPassword := fun u p => u.password == p
    signAccessToken := fun _ => "access"
    signRefreshToken := fun _ => "refresh"
    verifyRefreshToken := fun t c =>
      match c.find? (fun p => p.2 == t) with
      | some p => .ok p.1
      | none => .error jwtError
    delError := none
    getUser := fun h =>
      match h with
      | some "Bearer ann" => .ok 1
      | some "Bearer bob" => .ok 2
      | _ => .error jwtError
    signResetPasswordToken := fun _ => "reset"
    verifyResetPasswordToken := fun t => if t = some "reset" then .ok 1 else .error jwtError
    genSalt := fun _ => "salt"
    hash := fun p s => s ++ p
    NODEMAILER_USER := "noreply@example.org" }

def ann : User :=
  { id := 1, email := "ann@example.org", name := "Ann", password := "pw", emailToken := "c0ffee",
    isVerified := false }

def signupAnn : Request :=
  { body := [("email", "ann@example.org"), ("name", "Ann"), ("password", "pw")],
    headers := [("host", "localhost:3000")], params := [], query := [] }

def loginAnn : Request :=
  { body := [("email", "ann@example.org"), ("password", "pw")], headers := [], params := [],
    query := [] }

/-- A password reset by Ann: new password, her authorization header, the reset token. -/
def resetAnn : Request :=
  { body := [("password", "new")], headers := [("authorization", "Bearer ann")],
    params := [("token", "reset")], query := [] }

/-- A request of Bob, who has no account, with an email token nobody holds. -/
def strangerRequest : Request :=
  { body := [("password", "new")], headers := [("authorization", "Bearer bob")],
    params := [("token", "reset")], query := [("token", "f00")] }

def loginBob : Request :=
  { body := [("email", "bob@example.org"), ("password", "pw")], headers := [], params := [],
    query := [] }

/-- A request to the verifyemail route with a token in the query string. -/
def verifyRequest (token : String) : Request :=
  { body := [], headers := [], params := [], query := [("token", token)] }

/-- A request whose body carries a refresh token. -/
def tokenRequest (refreshToken : String) : Request :=
  { body := [("refreshToken", refreshToken)], headers := [], params := [], query := [] }

/-- The sample environment with a cache whose DEL command reports an error. -/
def failingDelEnv : Env :=
  { sampleEnv with delError := some redisError }

/-- The world after Ann has signed up in an empty system. -/
def afterSignup : World :=
  register sampleEnv signupAnn (World.start [] [])

/-- The world after Ann has followed a link that carries her email token. -/
def afterVerify : World :=
  verifyEmail sampleEnv (verifyRequest "c0ffee") (World.start afterSignup.users afterSignup.cache)

/-- The world after a further request to verifyemail with the token null. -/
def afterNull : World :=
  verifyEmail sampleEnv (verifyRequest "null") (World.start afterVerify.users afterVerify.cache)

def emptyRequest : Request :=
  { body := [], headers := [], params := [], query := [] }

/-- A password reset that carries a new password but no authorization header. -/
def resetNoAuth : Request :=
  { body := [("password", "new")], headers := [], params := [("token", "reset")], query := [] }

end Controller

namespace Controller

/-- No two documents of the collection share an email. -/
def EmailsUnique (users : List User) : Prop :=
  (users.map (fun u => u.email)).Nodup

/-- The body of the 409 response of register. -/
def conflictBody (email : String) : Json :=
  [("success", .bool false), ("error", .str "Conflict"),
    ("message", .str (" " ++ email ++ " has already been registered"))]

end Controller

namespace Controller

/-- The stored user that carries an email (the first one in collection order). -/
def userByEmail (users : List User) (email : String) : Option User :=
  users.find? (fun u => u.email == email)

/-- The body of the 404 response of login. -/
def notFoundBody : Json :=
  [("success", .bool false), ("error", .str "NotFound"), ("message", .str "User Not found")]

/-- The body of the 401 response of login. -/
def invalidLoginBody : Json :=
  [("error", .str "Unauthorized"), ("message", .str "Invalid Email or Password")]

/-- The body of a response that carries a token pair. -/
def tokenBody (accessToken refreshToken : String) : Json :=
  [("accessToken", .str accessToken), ("refreshToken", .str refreshToken)]

end Controller

namespace Controller

/-- The status codes that the spec lists for the HTTP surface. -/
def specStatuses : List Nat := [200, 204, 401, 404, 409, 422, 500]

/-- The spec list together with the two further codes that handlers send. -/
def sentStatuses : List Nat := [200, 201, 204, 400, 401, 404, 409, 422, 500]

end Controller

namespace Controller

/-- The body of the 401 response of forgotPassword. -/
def accountNotFoundBody : Json :=
  [("success", .bool false), ("error", .str "Unauthorized"),
    ("message", .str "Account Not Found")]

/-- The body of the 401 response of verifyEmail. -/
def verifyFailedBody : Json :=
  [("success", .bool false), ("error", .str "Unauthorized"),
    ("message", .str "Failed to Verify Email.")]

/-- The body of the 200 response of verifyEmail. -/
def verifiedBody : Json :=
  [("success", .bool true), ("message", .str "Email Successfully Verified!")]

end Controller

namespace Controller

/-- The entries of a cache that are stored under other keys than the given one. -/
def otherEntries (c : Cache) (key : UserId) : Cache :=
  c.filter (fun p => !(p.1 == key))

end Controller

namespace Controller

/-- At most one refresh token is stored under each user id. -/
def AtMostOne (c : Cache) : Prop :=
  ∀ u : UserId, (Cache.tokensOf c u).length ≤ 1

/-- Exactly one refresh token is stored for each user of the collection. -/
def ExactlyOne (users : List User) (c : Cache) : Prop :=
  ∀ u ∈ users, (Cache.tokensOf c u.id).length = 1

instance (users : List User) (c : Cache) : Decidable (ExactlyOne users c) := by
  unfold ExactlyOne
  infer_instance

/-- The refresh tokens issued in a log, each with the user id it was issued for. -/
def issued (log : List Event) : List (UserId × String) :=
  log.filterMap (fun ev => match ev with
    | .refreshToken userId token => some (userId, token)
    | _ => none)

/-- What a successful issuer has done to the cache it started from, for the user id
u and the refresh token it signed: this token is the only one issued, it was issued
for u and is returned in the 200 response, it is the only token stored for u, the
entries under all other keys are as before, and no token stored for u before that
differs from it is still stored. -/
def Overwrites (cache : Cache) (u : UserId) (token : String) (w : World) : Prop :=
  issued w.log = [(u, token)] ∧
  (∃ access, Event.respond 200 (tokenBody access token) ∈ w.log) ∧
  Cache.tokensOf w.cache u = [token] ∧
  otherEntries w.cache u = otherEntries cache u ∧
  (∀ k, k ≠ u → Cache.tokensOf w.cache k = Cache.tokensOf cache k) ∧
  (∀ old ∈ Cache.tokensOf cache u, old ≠ token → old ∉ Cache.tokensOf w.cache u)

/-! ### Reading the link of an email -/

/-- The characters that follow the first occurrence of a marker. -/
def afterMarker (marker : List Char) : List Char → List Char
  | [] => []
  | c :: cs =>
    if marker.isPrefixOf (c :: cs) then (c :: cs).drop marker.length
    else afterMarker marker cs

/-- The value of the first href attribute of an html text. -/
def hrefOf (html : String) : String :=
  String.mk ((afterMarker "href=\"".data html.data).takeWhile (fun c => c != '"'))

/-- The path of an absolute URL: what stands between the host and the question mark. -/
def urlPath (url : String) : String :=
  String.mk (((afterMarker "://".data url.data).dropWhile (fun c => c != '/')).takeWhile
    (fun c => c != '?'))

/-- The value of the query parameter token of a URL whose query is token=VALUE. -/
def urlToken (url : String) : String :=
  String.mk (afterMarker "?token=".data url.data)

/-- Does a path end with a route path. -/
def endsWith (p route : String) : Bool :=
  route.data.isSuffixOf p.data

end Controller

namespace Controller

/-! ## Rejected requests (C1) -/

theorem forwardedOnly_next (users : List User) (cache : Cache) (e : Err) :
    ForwardedOnly users cache e (next e (World.start users cache)) := by
  simp [ForwardedOnly, next, World.emit, World.start, statuses, mails, Event.isStoreAccess,
    Event.isTokenIssue]

/-- Claim C1: when the schema validation of register, login or resetPassword throws
an error e with isJoi = true, the handler sends no response, touches neither the
user collection nor the cache, issues no token, sends no email, and its only action
is next(e) with e.status set to 422.  Whatever error with isJoi not true leaves the
try block of one of the three handlers is handed to next as it is. -/
theorem validation_error_forwarded :
    (∀ (env : Env) (req : Request) (users : List User) (cache : Cache) (e : Err),
      e.isJoi = true →
      (env.signupSchema req.body = .error e →
        ForwardedOnly users cache { e with status := some 422 }
          (register env req (World.start users cache))) ∧
      (env.loginSchema req.body = .error e →
        ForwardedOnly users cache { e with status := some 422 }
          (login env req (World.start users cache))) ∧
      (env.resetPassSchema req.body = .error e →
        ForwardedOnly users cache { e with status := some 422 }
          (resetPassword env req (World.start users cache)))) ∧
    (∀ (env : Env) (req : Request) (w w1 : World) (e : Err), e.isJoi = false →
      (registerTry env req w = (w1, some e) → register env req w = next e w1) ∧
      (loginTry env req w = (w1, some e) → login env req w = next e w1) ∧
      (resetPasswordTry env req w = (w1, some e) → resetPassword env req w = next e w1)) := by
  refine ⟨?_, ?_⟩
  · intro env req users cache e hj
    refine ⟨?_, ?_, ?_⟩
    · intro h
      have hrun : register env req (World.start users cache)
          = next { e with status := some 422 } (World.start users cache) := by
        simp [register, registerTry, h, catchJoi, hj]
      rw [hrun]; exact forwardedOnly_next _ _ _
    · intro h
      have hrun : login env req (World.start users cache)
          = next { e with status := some 422 } (World.start users cache) := by
        simp [login, loginTry, h, catchJoi, hj]
      rw [hrun]; exact forwardedOnly_next _ _ _
    · intro h
      have hrun : resetPassword env req (World.start users cache)
          = next { e with status := some 422 } (World.start users cache) := by
        simp [resetPassword, resetPasswordTry, h, catchJoi, hj]
      rw [hrun]; exact forwardedOnly_next _ _ _
  · intro env req w w1 e hj
    refine ⟨?_, ?_, ?_⟩ <;> intro h
    · simp [register, h, catchJoi, hj]
    · simp [login, h, catchJoi, hj]
    · simp [resetPassword, h, catchJoi, hj]

/-- Witness of C1: a signup without email is rejected by the sample schema, and a
password reset without authorization header throws a non-Joi error. -/
theorem validation_error_forwarded_witness :
    ForwardedOnly [ann] [(1, "refresh")] { joiError with status := some 422 }
      (register sampleEnv emptyRequest (World.start [ann] [(1, "refresh")])) ∧
    resetPassword sampleEnv resetNoAuth (World.start [ann] [])
      = next jwtError (World.start [ann] []) :=
  ⟨((validation_error_forwarded.1 sampleEnv emptyRequest [ann] [(1, "refresh")] joiError
      rfl).1 rfl),
   ((validation_error_forwarded.2 sampleEnv resetNoAuth (World.start [ann] [])
      (World.start [ann] []) jwtError rfl).2.2 rfl)⟩

end Controller

namespace Controller

/-! ## Registration conflicts (C2) -/

theorem lt_freshId (users : List User) (u : User) (h : u ∈ users) : u.id < freshId users := by
  induction users with
  | nil => cases h
  | cons v vs ih =>
    have hstep : freshId (v :: vs) = max v.id ((vs.map (fun u => u.id)).foldr max 0) + 1 := rfl
    rw [hstep]
    rcases List.mem_cons.1 h with rfl | h
    · exact Nat.lt_succ_of_le (Nat.le_max_left _ _)
    · have hlt : u.id < (vs.map (fun u => u.id)).foldr max 0 + 1 := ih h
      exact Nat.lt_succ_of_le (Nat.le_trans (Nat.le_of_lt_succ hlt) (Nat.le_max_right _ _))

theorem any_freshId (users : List User) :
    users.any (fun u => u.id == freshId users) = false := by
  rw [List.any_eq_false]
  intro u hu
  have hlt := lt_freshId users u hu
  simp only [beq_iff_eq]
  exact Nat.ne_of_lt hlt

theorem find_email_none {users : List User} {email : String}
    (h : users.find? (fun u => (Filter.email email).matches u) = none) :
    email ∉ users.map (fun u => u.email) := by
  rw [List.find?_eq_none] at h
  intro hm
  obtain ⟨u, hu, he⟩ := List.mem_map.1 hm
  exact h u hu (by simp [Filter.matches, he])

theorem find_email_some {users : List User} {email : String}
    (h : ∃ u ∈ users, u.email = email) :
    ∃ v, users.find? (fun u => (Filter.email email).matches u) = some v := by
  obtain ⟨u, hu, he⟩ := h
  cases hf : users.find? (fun u => (Filter.email email).matches u) with
  | some v => exact ⟨v, rfl⟩
  | none =>
    rw [List.find?_eq_none] at hf
    exact absurd (by simp [Filter.matches, he]) (hf u hu)

/-- Claim C2: a valid register request whose email belongs to a stored user is
answered with status 409 and the body (success false, error Conflict, message);
nothing else happens: the user collection and the refresh-token cache are as before,
no token is issued and no email is sent.  Register keeps the emails of the collection
pairwise distinct. -/
theorem register_conflict :
    (∀ (env : Env) (req : Request) (users : List User) (cache : Cache)
        (result : SignupResult),
      env.signupSchema req.body = .ok result →
      (∃ u ∈ users, u.email = result.email) →
      (register env req (World.start users cache)).log
          = [.findOne (.email result.email), .respond 409 (conflictBody result.email)] ∧
        (register env req (World.start users cache)).users = users ∧
        (register env req (World.start users cache)).cache = cache ∧
        (register env req (World.start users cache)).log.any Event.isTokenIssue = false ∧
        mails (register env req (World.start users cache)).log = []) ∧
    (∀ (env : Env) (req : Request) (w : World),
      EmailsUnique w.users → EmailsUnique (register env req w).users) := by
  refine ⟨?_, ?_⟩
  · intro env req users cache result hv hex
    obtain ⟨v, hf⟩ := find_email_some hex
    have hrun : register env req (World.start users cache)
        = { users := users, cache := cache,
            log := [.findOne (.email result.email), .respond 409 (conflictBody result.email)] } := by
      simp [register, registerTry, hv, User.findOne, World.start, World.emit, hf, respond,
        catchJoi, conflictBody]
    rw [hrun]
    simp [Event.isTokenIssue, mails]
  · intro env req w hu
    cases hv : env.signupSchema req.body with
    | error e =>
      simp [register, registerTry, hv, catchJoi, next, World.emit]
      exact hu
    | ok result =>
      cases hf : w.users.find? (fun u => (Filter.email result.email).matches u) with
      | some v =>
        simp [register, registerTry, hv, User.findOne, World.emit, hf, respond, catchJoi]
        exact hu
      | none =>
        have hfresh := any_freshId w.users
        have hnot := find_email_none hf
        have husers : (register env req w).users
            = w.users ++ [{ User.new result w with emailToken := env.randomBytes }] := by
          simp [register, registerTry, hv, User.findOne, World.emit, hf, respond, catchJoi,
            User.save, User.new, setAccessToken, setRefreshToken, nodemailer, hfresh]
        rw [husers]
        simp only [EmailsUnique, List.map_append, List.map_cons, List.map_nil, User.new]
        rw [List.nodup_append]
        refine ⟨hu, List.nodup_singleton _, ?_⟩
        intro a ha hb
        rw [List.mem_singleton] at hb
        exact hnot (hb ▸ ha)

/-- Witness of C2: Ann signs up a second time. -/
theorem register_conflict_witness :
    ((register sampleEnv signupAnn (World.start [ann] [(1, "refresh")])).log
        = [.findOne (.email "ann@example.org"), .respond 409 (conflictBody "ann@example.org")] ∧
      (register sampleEnv signupAnn (World.start [ann] [(1, "refresh")])).users = [ann] ∧
      (register sampleEnv signupAnn (World.start [ann] [(1, "refresh")])).cache
        = [(1, "refresh")] ∧
      (register sampleEnv signupAnn (World.start [ann] [(1, "refresh")])).log.any
        Event.isTokenIssue = false ∧
      mails (register sampleEnv signupAnn (World.start [ann] [(1, "refresh")])).log = []) ∧
    EmailsUnique (register sampleEnv signupAnn (World.start [ann] [])).users :=
  ⟨register_conflict.1 sampleEnv signupAnn [ann] [(1, "refresh")]
      { email := "ann@example.org", name := "Ann", password := "pw" } rfl
      ⟨ann, by simp, rfl⟩,
   register_conflict.2 sampleEnv signupAnn (World.start [ann] [])
      (by simp [EmailsUnique, World.start, ann])⟩

end Controller

namespace Controller

/-! ## Login (C3) -/

theorem userByEmail_eq (users : List User) (email : String) :
    users.find? (fun u => (Filter.email email).matches u) = userByEmail users email := rfl

theorem userByEmail_none {users : List User} {email : String}
    (h : ∀ u ∈ users, u.email ≠ email) : userByEmail users email = none := by
  rw [userByEmail, List.find?_eq_none]
  intro u hu
  simpa using h u hu

theorem login_found (env : Env) (req : Request) (users : List User) (cache : Cache)
    (result : LoginResult) (user : User) (hv : env.loginSchema req.body = .ok result)
    (hf : userByEmail users result.email = some user) :
    login env req (World.start users cache)
      = if env.isValidPassword user result.password = false then
          { users := users, cache := cache,
            log := [.findOne (.email result.email), .respond 401 invalidLoginBody] }
        else
          { users := users,
            cache := Cache.set cache user.id (env.signRefreshToken user.id),
            log := [.findOne (.email result.email),
              .accessToken user.id (env.signAccessToken user.id),
              .refreshToken user.id (env.signRefreshToken user.id),
              .respond 200 (tokenBody (env.signAccessToken user.id)
                (env.signRefreshToken user.id))] } := by
  cases hp : env.isValidPassword user result.password <;>
    simp [login, loginTry, hv, User.findOne, World.start, World.emit, userByEmail_eq, hf, hp,
      respond, catchJoi, setAccessToken, setRefreshToken, invalidLoginBody, tokenBody]

/-- Claim C3: for a login request that passes validation: when no stored user has
the email, the response is 404 with error NotFound and no token is issued; when the
user exists and the password check yields false, the response is 401 with error
Unauthorized and no token is issued; login answers 200 exactly when the user exists
and the password check yields true, and the 200 response carries the access token
and the refresh token issued for the id of that user. -/
theorem login_outcomes (env : Env) (req : Request) (users : List User) (cache : Cache)
    (result : LoginResult) (hv : env.loginSchema req.body = .ok result) :
    ((∀ u ∈ users, u.email ≠ result.email) →
      (login env req (World.start users cache)).log
          = [.findOne (.email result.email), .respond 404 notFoundBody] ∧
        (login env req (World.start users cache)).cache = cache ∧
        (login env req (World.start users cache)).log.any Event.isTokenIssue = false) ∧
    (∀ user, userByEmail users result.email = some user →
      env.isValidPassword user result.password = false →
      (login env req (World.start users cache)).log
          = [.findOne (.email result.email), .respond 401 invalidLoginBody] ∧
        (login env req (World.start users cache)).cache = cache ∧
        (login env req (World.start users cache)).log.any Event.isTokenIssue = false) ∧
    (200 ∈ statuses (login env req (World.start users cache)).log ↔
      ∃ user, userByEmail users result.email = some user ∧
        env.isValidPassword user result.password = true) ∧
    (∀ user, userByEmail users result.email = some user →
      env.isValidPassword user result.password = true →
      (login env req (World.start users cache)).log
          = [.findOne (.email result.email),
              .accessToken user.id (env.signAccessToken user.id),
              .refreshToken user.id (env.signRefreshToken user.id),
              .respond 200 (tokenBody (env.signAccessToken user.id)
                (env.signRefreshToken user.id))]) := by
  refine ⟨?_, ?_, ?_, ?_⟩
  · intro hno
    have hf := userByEmail_none hno
    have hrun : login env req (World.start users cache)
        = { users := users, cache := cache,
            log := [.findOne (.email result.email), .respond 404 notFoundBody] } := by
      simp [login, loginTry, hv, User.findOne, World.start, World.emit, userByEmail_eq, hf,
        respond, catchJoi, notFoundBody]
    rw [hrun]
    simp [Event.isTokenIssue]
  · intro user hf hp
    rw [login_found env req users cache result user hv hf]
    simp [hp, Event.isTokenIssue]
  · cases hf : userByEmail users result.email with
    | none =>
      have hrun : login env req (World.start users cache)
          = { users := users, cache := cache,
              log := [.findOne (.email result.email), .respond 404 notFoundBody] } := by
        simp [login, loginTry, hv, User.findOne, World.start, World.emit, userByEmail_eq, hf,
          respond, catchJoi, notFoundBody]
      rw [hrun]
      simp [statuses]
    | some user =>
      rw [login_found env req users cache result user hv hf]
      cases hp : env.isValidPassword user result.password <;> simp [statuses, hp]
  · intro user hf hp
    rw [login_found env req users cache result user hv hf]
    simp [hp]

/-- Witness of C3: Ann logs in with her password. -/
theorem login_outcomes_witness :
    200 ∈ statuses (login sampleEnv loginAnn (World.start [ann] [])).log ↔
      ∃ user, userByEmail [ann] "ann@example.org" = some user ∧
        sampleEnv.isValidPassword user "pw" = true :=
  (login_outcomes sampleEnv loginAnn [ann] []
    { email := "ann@example.org", password := "pw" } rfl).2.2.1

end Controller

namespace Controller

/-! ## Status codes (C4) -/

/-- Claim C4, counterexample: refreshToken without a refresh token in the body
answers 400, and a successful resetPassword answers 201; neither code is in the
list (200, 204, 401, 404, 409, 422, 500). -/
theorem statuses_outside_spec :
    statuses (runHandler .refreshToken sampleEnv emptyRequest (World.start [ann] [])).log
        = [400] ∧ 400 ∉ specStatuses ∧
    statuses (runHandler .resetPassword sampleEnv resetAnn (World.start [ann] [])).log
        = [201] ∧ 201 ∉ specStatuses := by
  decide

/-- Claim C4, amended: every status code that a handler of the controller sends is
one of 200, 201, 204, 400, 401, 404, 409, 422, 500. -/
theorem statuses_sent (h : Handler) (env : Env) (req : Request) (users : List User)
    (cache : Cache) :
    statuses (runHandler h env req (World.start users cache)).log ⊆ sentStatuses := by
  cases h <;>
    simp only [runHandler, register, registerTry, login, loginTry, refreshToken,
      refreshTokenTry, logout, logoutTry, delCallback, forgotPassword, forgotPasswordTry,
      resetPassword, resetPasswordTry, verifyEmail, verifyEmailTry, User.findOne, World.start,
      World.emit, respond, catchJoi, catchNext, next, User.save, User.new, setAccessToken,
      setRefreshToken, setResetPasswordToken, nodemailer] <;>
    (repeat' split) <;>
    simp_all [statuses, sentStatuses]

end Controller

namespace Controller

/-! ## Lookups that find no user (C5) -/

/-- Claim C5, counterexample: for a token that no user holds verifyEmail answers 401,
and for an id that no user has forgotPassword answers 401; neither answers 404. -/
theorem not_found_is_401 :
    (User.findOne (.emailToken (some "f00")) (World.start [ann] [])).1 = none ∧
    (verifyEmail sampleEnv strangerRequest (World.start [ann] [])).log
      = [.findOne (.emailToken (some "f00")), .respond 401 verifyFailedBody] ∧
    (User.findOne (._id 2) (World.start [ann] [])).1 = none ∧
    (forgotPassword sampleEnv strangerRequest (World.start [ann] [])).log
      = [.findOne (._id 2), .respond 401 accountNotFoundBody] := by
  decide

/-- Claim C5, amended: when the lookup finds no user, login answers 404 (NotFound),
while forgotPassword and verifyEmail answer 401 (Unauthorized); each sends this one
response and nothing else. -/
theorem lookup_miss_status (env : Env) (req : Request) (users : List User) (cache : Cache) :
    (∀ result, env.loginSchema req.body = .ok result →
      (User.findOne (.email result.email) (World.start users cache)).1 = none →
      (login env req (World.start users cache)).log
        = [.findOne (.email result.email), .respond 404 notFoundBody]) ∧
    (∀ id, env.getUser (req.headers.lookup "authorization") = .ok id →
      (User.findOne (._id id) (World.start users cache)).1 = none →
      (forgotPassword env req (World.start users cache)).log
        = [.findOne (._id id), .respond 401 accountNotFoundBody]) ∧
    ((User.findOne (.emailToken (req.query.lookup "token")) (World.start users cache)).1 = none →
      (verifyEmail env req (World.start users cache)).log
        = [.findOne (.emailToken (req.query.lookup "token")), .respond 401 verifyFailedBody]) := by
  refine ⟨?_, ?_, ?_⟩
  · intro result hv hf
    simp only [User.findOne, World.start] at hf
    simp [login, loginTry, hv, User.findOne, World.start, World.emit, hf, respond, catchJoi,
      notFoundBody]
  · intro id hg hf
    simp only [User.findOne, World.start] at hf
    simp [forgotPassword, forgotPasswordTry, hg, User.findOne, World.start, World.emit, hf,
      respond, catchNext, accountNotFoundBody]
  · intro hf
    simp only [User.findOne, World.start] at hf
    simp [verifyEmail, verifyEmailTry, User.findOne, World.start, World.emit, hf,
      respond, catchNext, verifyFailedBody]

/-- Witness of C5: Bob, who has no account, tries the three handlers. -/
theorem lookup_miss_status_witness :
    (login sampleEnv loginBob (World.start [ann] [])).log
        = [.findOne (.email "bob@example.org"), .respond 404 notFoundBody] ∧
    (forgotPassword sampleEnv strangerRequest (World.start [ann] [])).log
        = [.findOne (._id 2), .respond 401 accountNotFoundBody] ∧
    (verifyEmail sampleEnv strangerRequest (World.start [ann] [])).log
        = [.findOne (.emailToken (some "f00")), .respond 401 verifyFailedBody] :=
  ⟨(lookup_miss_status sampleEnv loginBob [ann] []).1
      { email := "bob@example.org", password := "pw" } rfl (by decide),
   (lookup_miss_status sampleEnv strangerRequest [ann] []).2.1 2 rfl (by decide),
   (lookup_miss_status sampleEnv strangerRequest [ann] []).2.2 (by decide)⟩

end Controller

namespace Controller

/-! ## Email token (C6) -/

/-- One-time use of a token that differs from the string null and that at most one
stored user holds: a verifyEmail that answers 200 leaves a store on which the same
request is answered 401. -/
theorem issued_token_one_time (env env2 : Env) (req : Request) (users : List User)
    (cache : Cache) (t : String) (hq : req.query.lookup "token" = some t) (hne : t ≠ "null")
    (huniq : ∀ u ∈ users, ∀ v ∈ users, u.emailToken = t → v.emailToken = t → u = v)
    (hok : 200 ∈ statuses (verifyEmail env req (World.start users cache)).log) :
    (verifyEmail env2 req
      (World.start (verifyEmail env req (World.start users cache)).users
        (verifyEmail env req (World.start users cache)).cache)).log
      = [.findOne (.emailToken (some t)), .respond 401 verifyFailedBody] := by
  cases hf : users.find? (fun u => (Filter.emailToken (some t)).matches u) with
  | none =>
    simp [verifyEmail, verifyEmailTry, User.findOne, World.start, World.emit, hq, hf,
      respond, catchNext, statuses] at hok
  | some user =>
    have hmem : user ∈ users := List.mem_of_find?_eq_some hf
    have htok : user.emailToken = t := by
      have := List.find?_some hf
      simpa [Filter.matches] using this
    have hany : users.any (fun u => u.id == user.id) = true := by
      rw [List.any_eq_true]
      exact ⟨user, hmem, by simp⟩
    have hany2 : ∃ x ∈ users, x.id = user.id := ⟨user, hmem, rfl⟩
    have husers : (verifyEmail env req (World.start users cache)).users
        = users.map (fun u => if u.id == user.id then
            { user with emailToken := "null", isVerified := true } else u) := by
      simp [verifyEmail, verifyEmailTry, User.findOne, World.start, World.emit, hq, hf,
        respond, catchNext, User.save, hany2]
    have hnone : (users.map (fun u => if u.id == user.id then
            { user with emailToken := "null", isVerified := true } else u)).find?
          (fun u => (Filter.emailToken (some t)).matches u) = none := by
      rw [List.find?_eq_none]
      intro v hv
      obtain ⟨u, hu, rfl⟩ := List.mem_map.1 hv
      by_cases hid : u.id = user.id
      · simp [hid, Filter.matches]
        exact fun h => hne h.symm
      · simp only [beq_iff_eq, hid, if_false, Filter.matches]
        intro hut
        have hut2 : u.emailToken = t := by simpa using hut
        exact hid (by rw [huniq u hu user hmem hut2 htok])
    have hmiss : ∀ (us : List User) (c : Cache),
        us.find? (fun u => (Filter.emailToken (some t)).matches u) = none →
        (verifyEmail env2 req (World.start us c)).log
          = [.findOne (.emailToken (some t)), .respond 401 verifyFailedBody] := by
      intro us c hus
      simp [verifyEmail, verifyEmailTry, User.findOne, World.start, World.emit, hq, hus,
        respond, catchNext, verifyFailedBody]
    rw [husers]
    exact hmiss _ _ hnone

/-- Claim C6, evaluation at the failing input: Ann signs up and verifies her email
with the token of her link; a second request with that token is answered 401.  After
the verification her emailToken is the string null, so a request with the token null
is answered 200, and the same request on the resulting store is answered 200 again. -/
theorem null_token_reusable :
    afterSignup.users = [ann] ∧
    statuses afterVerify.log = [200] ∧
    afterVerify.users = [{ ann with emailToken := "null", isVerified := true }] ∧
    statuses (verifyEmail sampleEnv (verifyRequest "c0ffee")
      (World.start afterVerify.users afterVerify.cache)).log = [401] ∧
    afterNull.log = [.findOne (.emailToken (some "null")),
      .save { ann with emailToken := "null", isVerified := true }, .respond 200 verifiedBody] ∧
    (verifyEmail sampleEnv (verifyRequest "null")
      (World.start afterNull.users afterNull.cache)).log
      = [.findOne (.emailToken (some "null")),
          .save { ann with emailToken := "null", isVerified := true },
          .respond 200 verifiedBody] := by
  decide

/-! ## Logout (C7) -/

theorem tokensOf_del_self (c : Cache) (u : UserId) : Cache.tokensOf (Cache.del c u) u = [] := by
  simp [Cache.tokensOf, Cache.del, List.filter_filter]

theorem tokensOf_del_other (c : Cache) (u k : UserId) (h : k ≠ u) :
    Cache.tokensOf (Cache.del c u) k = Cache.tokensOf c k := by
  simp only [Cache.tokensOf, Cache.del, List.filter_filter]
  congr 1
  apply List.filter_congr
  intro p _
  by_cases hk : p.1 = k
  · simp [hk, h]
  · simp [hk]

theorem otherEntries_del (c : Cache) (u : UserId) :
    otherEntries (Cache.del c u) u = otherEntries c u := by
  simp [otherEntries, Cache.del, List.filter_filter]

/-- Claim C7, counterexample: when client.DEL reports an error, the refresh token of
the user is still in the cache after logout. -/
theorem logout_del_error_keeps_token :
    failingDelEnv.verifyRefreshToken "refresh" [(1, "refresh")] = .ok 1 ∧
    (logout failingDelEnv (tokenRequest "refresh") (World.start [ann] [(1, "refresh")])).cache
      = [(1, "refresh")] ∧
    Cache.get (logout failingDelEnv (tokenRequest "refresh")
      (World.start [ann] [(1, "refresh")])).cache 1 = some "refresh" :=
  ⟨rfl, by decide, by decide⟩

/-- Claim C7, amended: for a logout request whose refresh token verifies to the user
id u and whose cache delete reports no error: afterwards the cache holds no refresh
token for u, the entries under every other key and the user collection are as
before, and the one response has status 204.  A logout request without refresh token
leaves the cache as it is. -/
theorem logout_frame (env : Env) (req : Request) (users : List User) (cache : Cache) :
    (∀ (token : String) (u : UserId), req.body.lookup "refreshToken" = some token →
      token ≠ "" → env.verifyRefreshToken token cache = .ok u → env.delError = none →
      Cache.get (logout env req (World.start users cache)).cache u = none ∧
      Cache.tokensOf (logout env req (World.start users cache)).cache u = [] ∧
      otherEntries (logout env req (World.start users cache)).cache u = otherEntries cache u ∧
      (∀ k, k ≠ u → Cache.tokensOf (logout env req (World.start users cache)).cache k
        = Cache.tokensOf cache k) ∧
      (logout env req (World.start users cache)).users = users ∧
      (logout env req (World.start users cache)).log
        = [.cacheDel u, .respond 204 [("success", .bool true)]]) ∧
    (falsy (req.body.lookup "refreshToken") = true →
      (logout env req (World.start users cache)).cache = cache) := by
  refine ⟨?_, ?_⟩
  · intro token u hb hne hv hd
    have hrun : logout env req (World.start users cache)
        = { users := users, cache := Cache.del cache u,
            log := [.cacheDel u, .respond 204 [("success", .bool true)]] } := by
      simp [logout, logoutTry, hb, falsy, hne, hv, hd, delCallback, World.start, World.emit,
        respond, catchNext]
    rw [hrun]
    refine ⟨?_, tokensOf_del_self _ _, otherEntries_del _ _, ?_, rfl, rfl⟩
    · simp [Cache.get, tokensOf_del_self]
    · intro k hk
      exact tokensOf_del_other _ _ _ hk
  · intro hfalsy
    simp [logout, logoutTry, hfalsy, World.start, World.emit, respond, catchNext]

/-- Witness of C7: Ann logs out with her stored refresh token while Bob stays logged
in; a logout without token changes nothing. -/
theorem logout_frame_witness :
    (Cache.get (logout sampleEnv (tokenRequest "refresh")
        (World.start [ann] [(2, "other"), (1, "refresh")])).cache 1 = none ∧
      Cache.tokensOf (logout sampleEnv (tokenRequest "refresh")
        (World.start [ann] [(2, "other"), (1, "refresh")])).cache 1 = [] ∧
      otherEntries (logout sampleEnv (tokenRequest "refresh")
        (World.start [ann] [(2, "other"), (1, "refresh")])).cache 1
        = otherEntries [(2, "other"), (1, "refresh")] 1 ∧
      (∀ k, k ≠ 1 → Cache.tokensOf (logout sampleEnv (tokenRequest "refresh")
        (World.start [ann] [(2, "other"), (1, "refresh")])).cache k
        = Cache.tokensOf [(2, "other"), (1, "refresh")] k) ∧
      (logout sampleEnv (tokenRequest "refresh")
        (World.start [ann] [(2, "other"), (1, "refresh")])).users = [ann] ∧
      (logout sampleEnv (tokenRequest "refresh")
        (World.start [ann] [(2, "other"), (1, "refresh")])).log
        = [.cacheDel 1, .respond 204 [("success", .bool true)]]) ∧
    (logout sampleEnv emptyRequest (World.start [ann] [(1, "refresh")])).cache
      = [(1, "refresh")] :=
  ⟨(logout_frame sampleEnv (tokenRequest "refresh") [ann] [(2, "other"), (1, "refresh")]).1
      "refresh" 1 rfl (by decide) rfl rfl,
   (logout_frame sampleEnv emptyRequest [ann] [(1, "refresh")]).2 rfl⟩

end Controller

namespace Controller

/-! ## One refresh token per user id (C8) -/

theorem tokensOf_set_self (c : Cache) (u : UserId) (token : String) :
    Cache.tokensOf (Cache.set c u token) u = [token] := by
  have h := tokensOf_del_self c u
  simp only [Cache.tokensOf] at h
  simp [Cache.tokensOf, Cache.set, List.filter_cons, h]

theorem tokensOf_set_other (c : Cache) (u k : UserId) (token : String) (h : k ≠ u) :
    Cache.tokensOf (Cache.set c u token) k = Cache.tokensOf c k := by
  have hd := tokensOf_del_other c u k h
  simp only [Cache.tokensOf] at hd
  have hne : ¬ u = k := fun e => h e.symm
  simp [Cache.tokensOf, Cache.set, List.filter_cons, hne, hd]

theorem otherEntries_set (c : Cache) (u : UserId) (token : String) :
    otherEntries (Cache.set c u token) u = otherEntries c u := by
  have h := otherEntries_del c u
  simp only [otherEntries] at h
  simp [otherEntries, Cache.set, List.filter_cons, h]

theorem atMostOne_set (c : Cache) (u : UserId) (token : String) (h : AtMostOne c) :
    AtMostOne (Cache.set c u token) := by
  intro k
  by_cases hk : k = u
  · subst hk
    simp [tokensOf_set_self]
  · rw [tokensOf_set_other c u k token hk]
    exact h k

theorem atMostOne_del (c : Cache) (u : UserId) (h : AtMostOne c) :
    AtMostOne (Cache.del c u) := by
  intro k
  by_cases hk : k = u
  · subst hk
    simp [tokensOf_del_self]
  · rw [tokensOf_del_other c u k hk]
    exact h k

/-- The cache after a handler is the cache before it, or that cache after one SET,
or that cache after one DEL. -/
theorem cache_step (h : Handler) (env : Env) (req : Request) (w : World) :
    (runHandler h env req w).cache = w.cache ∨
    (∃ u token, (runHandler h env req w).cache = Cache.set w.cache u token) ∨
    (∃ u, (runHandler h env req w).cache = Cache.del w.cache u) := by
  cases h <;>
    simp only [runHandler, register, registerTry, login, loginTry, refreshToken,
      refreshTokenTry, logout, logoutTry, delCallback, forgotPassword, forgotPasswordTry,
      resetPassword, resetPasswordTry, verifyEmail, verifyEmailTry, User.findOne,
      World.emit, respond, catchJoi, catchNext, next, User.save, User.new, setAccessToken,
      setRefreshToken, setResetPasswordToken, nodemailer] <;>
    (repeat' split) <;>
    simp_all

/-- A world whose cache is the old cache after one SET under u, whose log holds
exactly the one issue for u and the 200 response with the token, overwrites. -/
theorem overwrites_of_set (cache : Cache) (u : UserId) (token access : String) (w : World)
    (hc : w.cache = Cache.set cache u token) (hi : issued w.log = [(u, token)])
    (hr : Event.respond 200 (tokenBody access token) ∈ w.log) :
    Overwrites cache u token w := by
  refine ⟨hi, ⟨access, hr⟩, ?_, ?_, ?_, ?_⟩
  · rw [hc]; exact tokensOf_set_self _ _ _
  · rw [hc]; exact otherEntries_set _ _ _
  · intro k hk
    rw [hc]; exact tokensOf_set_other _ _ _ _ hk
  · intro old _ hne
    rw [hc, tokensOf_set_self]
    simpa using hne

/-- The world after a register that passed validation and found the email free. -/
theorem register_fresh (env : Env) (req : Request) (users : List User) (cache : Cache)
    (result : SignupResult) (hv : env.signupSchema req.body = .ok result)
    (hf : users.find? (fun u => (Filter.email result.email).matches u) = none) :
    register env req (World.start users cache)
      = { users := users ++
            [{ User.new result (World.start users cache) with emailToken := env.randomBytes }],
          cache := Cache.set cache (freshId users) (env.signRefreshToken (freshId users)),
          log := [.findOne (.email result.email),
            .save { User.new result (World.start users cache) with
              emailToken := env.randomBytes },
            .accessToken (freshId users) (env.signAccessToken (freshId users)),
            .refreshToken (freshId users) (env.signRefreshToken (freshId users)),
            .mail { sender := env.NODEMAILER_USER, recipient := result.email,
                    subject := "Email Verification",
                    html := activationHtml result.name
                      (activationHref (templ (req.headers.lookup "host")) env.randomBytes) },
            .respond 200 (tokenBody (env.signAccessToken (freshId users))
              (env.signRefreshToken (freshId users)))] } := by
  have hfresh := any_freshId users
  simp only [List.any_eq_false, beq_iff_eq] at hfresh
  simp [register, registerTry, hv, User.findOne, World.start, World.emit, hf, respond,
    catchJoi, User.save, User.new, setAccessToken, setRefreshToken, nodemailer, hfresh,
    tokenBody]
  intro x hx hid
  exact absurd hid (hfresh x hx)

/-- The world after a refreshToken whose token verifies to a user id. -/
theorem refreshToken_verified (env : Env) (req : Request) (users : List User)
    (cache : Cache) (token : String) (u : UserId)
    (hb : req.body.lookup "refreshToken" = some token) (hne : token ≠ "")
    (hv : env.verifyRefreshToken token cache = .ok u) :
    refreshToken env req (World.start users cache)
      = { users := users,
          cache := Cache.set cache u (env.signRefreshToken u),
          log := [.accessToken u (env.signAccessToken u),
            .refreshToken u (env.signRefreshToken u),
            .respond 200 (tokenBody (env.signAccessToken u) (env.signRefreshToken u))] } := by
  simp [refreshToken, refreshTokenTry, hb, falsy, hne, hv, World.start, World.emit, respond,
    catchNext, setAccessToken, setRefreshToken, tokenBody]

/-- Claim C8, counterexample: with Ann in the collection and her one refresh token
in the cache there is exactly one token per user; after her logout there is none.
And when the signer returns for Ann the token that is already stored, the token
stored before her login is still the stored one afterwards. -/
theorem exactly_one_not_kept :
    ExactlyOne [ann] [(1, "refresh")] ∧
    ¬ ExactlyOne
      (runHandler .logout sampleEnv (tokenRequest "refresh")
        (World.start [ann] [(1, "refresh")])).users
      (runHandler .logout sampleEnv (tokenRequest "refresh")
        (World.start [ann] [(1, "refresh")])).cache ∧
    statuses (runHandler .login sampleEnv loginAnn (World.start [ann] [(1, "refresh")])).log
      = [200] ∧
    "refresh" ∈ Cache.tokensOf
      (runHandler .login sampleEnv loginAnn (World.start [ann] [(1, "refresh")])).cache 1 := by
  decide

/-- Claim C8, amended: every handler keeps the invariant that at most one refresh
token is stored per user id.  A register that answers 200 has saved the new user
and issued one refresh token, for the id of that user; a login that answers 200 has
issued one refresh token, for the id of the user found by the email; a refreshToken
that answers 200 has issued one refresh token, for the id its request token verifies
to.  In each case that id u is the only key written: the new token is returned in
the body and is afterwards the only token stored for u, the entries under every
other key are as before, and no token stored for u before that differs from the new
one is still stored. -/
theorem one_token_per_user :
    (∀ (h : Handler) (env : Env) (req : Request) (w : World),
      AtMostOne w.cache → AtMostOne (runHandler h env req w).cache) ∧
    (∀ (env : Env) (req : Request) (users : List User) (cache : Cache)
        (result : SignupResult),
      env.signupSchema req.body = .ok result →
      200 ∈ statuses (register env req (World.start users cache)).log →
      (∃ user ∈ (register env req (World.start users cache)).users,
        user ∉ users ∧ user.email = result.email ∧ user.id = freshId users ∧
        Event.save user ∈ (register env req (World.start users cache)).log) ∧
      Overwrites cache (freshId users) (env.signRefreshToken (freshId users))
        (register env req (World.start users cache))) ∧
    (∀ (env : Env) (req : Request) (users : List User) (cache : Cache)
        (result : LoginResult) (user : User),
      env.loginSchema req.body = .ok result →
      userByEmail users result.email = some user →
      200 ∈ statuses (login env req (World.start users cache)).log →
      Overwrites cache user.id (env.signRefreshToken user.id)
        (login env req (World.start users cache))) ∧
    (∀ (env : Env) (req : Request) (users : List User) (cache : Cache)
        (token : String) (u : UserId),
      req.body.lookup "refreshToken" = some token →
      env.verifyRefreshToken token cache = .ok u →
      200 ∈ statuses (refreshToken env req (World.start users cache)).log →
      Overwrites cache u (env.signRefreshToken u)
        (refreshToken env req (World.start users cache))) := by
  refine ⟨?_, ?_, ?_, ?_⟩
  · intro h env req w hw
    rcases cache_step h env req w with hc | ⟨u, token, hc⟩ | ⟨u, hc⟩
    · rw [hc]; exact hw
    · rw [hc]; exact atMostOne_set _ _ _ hw
    · rw [hc]; exact atMostOne_del _ _ hw
  · intro env req users cache result hv hok
    cases hf : users.find? (fun u => (Filter.email result.email).matches u) with
    | some v =>
      simp [register, registerTry, hv, User.findOne, World.start, World.emit, hf, respond,
        catchJoi, statuses] at hok
    | none =>
      rw [register_fresh env req users cache result hv hf]
      refine ⟨⟨{ User.new result (World.start users cache) with
          emailToken := env.randomBytes }, by simp, ?_, rfl, rfl, by simp⟩, ?_⟩
      · intro hmem
        exact Nat.lt_irrefl _ (lt_freshId users _ hmem)
      · exact overwrites_of_set cache _ _ (env.signAccessToken (freshId users)) _ rfl
          (by simp [issued]) (by simp)
  · intro env req users cache result user hv hf hok
    rw [login_found env req users cache result user hv hf] at hok ⊢
    cases hp : env.isValidPassword user result.password
    · simp [hp, statuses] at hok
    · simp only [hp, Bool.true_eq_false, if_false]
      exact overwrites_of_set cache _ _ (env.signAccessToken user.id) _ rfl
        (by simp [issued]) (by simp)
  · intro env req users cache token u hb hv hok
    by_cases hne : token = ""
    · simp [refreshToken, refreshTokenTry, hb, falsy, hne, World.start, World.emit, respond,
        catchNext, statuses] at hok
    · rw [refreshToken_verified env req users cache token u hb hne hv]
      exact overwrites_of_set cache _ _ (env.signAccessToken u) _ rfl
        (by simp [issued]) (by simp)

/-- Witness of C8: Ann signs up while Bob holds a token; Ann, whose cache entry
holds an older token, logs in; Ann exchanges her stored refresh token. -/
theorem one_token_per_user_witness :
    AtMostOne (runHandler .login sampleEnv loginAnn (World.start [ann] [(1, "old")])).cache ∧
    ((∃ user ∈ (register sampleEnv signupAnn (World.start [] [(2, "other")])).users,
        user ∉ ([] : List User) ∧ user.email = "ann@example.org" ∧ user.id = freshId [] ∧
        Event.save user ∈ (register sampleEnv signupAnn (World.start [] [(2, "other")])).log) ∧
      Overwrites [(2, "other")] (freshId []) (sampleEnv.signRefreshToken (freshId []))
        (register sampleEnv signupAnn (World.start [] [(2, "other")]))) ∧
    Overwrites [(1, "old")] ann.id (sampleEnv.signRefreshToken ann.id)
      (login sampleEnv loginAnn (World.start [ann] [(1, "old")])) ∧
    Overwrites [(2, "other"), (1, "stored")] 1 (sampleEnv.signRefreshToken 1)
      (refreshToken sampleEnv (tokenRequest "stored")
        (World.start [ann] [(2, "other"), (1, "stored")])) :=
  ⟨one_token_per_user.1 .login sampleEnv loginAnn (World.start [ann] [(1, "old")])
      (by intro u; simp only [World.start, Cache.tokensOf, List.filter_cons, List.filter_nil]
          split <;> simp),
   one_token_per_user.2.1 sampleEnv signupAnn [] [(2, "other")]
      { email := "ann@example.org", name := "Ann", password := "pw" } rfl (by decide),
   one_token_per_user.2.2.1 sampleEnv loginAnn [ann] [(1, "old")]
      { email := "ann@example.org", password := "pw" } ann rfl rfl (by decide),
   one_token_per_user.2.2.2 sampleEnv (tokenRequest "stored") [ann]
      [(2, "other"), (1, "stored")] "stored" 1 rfl rfl (by decide)⟩

end Controller

namespace Controller

/-! ## One outcome per invocation (C9) -/

/-- Claim C9, evaluation at the failing inputs: resetPassword for an authenticated id
that no stored user has performs the lookup and then neither sends a response nor
calls next; logout whose cache delete reports an error calls res.status(...).json
twice, first with 204 and then with 500. -/
theorem no_single_outcome :
    (resetPassword sampleEnv strangerRequest (World.start [ann] [])).log
      = [.findOne (._id 2)] ∧
    statuses (resetPassword sampleEnv strangerRequest (World.start [ann] [])).log = [] ∧
    forwarded (resetPassword sampleEnv strangerRequest (World.start [ann] [])).log = [] ∧
    statuses (logout failingDelEnv (tokenRequest "refresh")
      (World.start [ann] [(1, "refresh")])).log = [204, 500] ∧
    forwarded (logout failingDelEnv (tokenRequest "refresh")
      (World.start [ann] [(1, "refresh")])).log = [] := by
  decide

/-! ## Activation link (C10) -/

set_option maxRecDepth 100000

/-- Claim C10, evaluation at the failing input: Ann signs up on localhost:3000.  The
one email sent carries a link whose token parameter is the emailToken saved on her
document, but whose path is /api/v1/auth/verify; the route that initializeRoutes
registers for verifyEmail is GET /auth/verifyemail, the path of the link does not end
with it, nor with the path of any other registered route. -/
theorem activation_link_misses_route :
    afterSignup.users = [ann] ∧
    (mails afterSignup.log).map (fun m => hrefOf m.html)
      = ["http://localhost:3000/api/v1/auth/verify?token=c0ffee"] ∧
    (mails afterSignup.log).map (fun m => urlToken (hrefOf m.html)) = [ann.emailToken] ∧
    (mails afterSignup.log).map (fun m => urlPath (hrefOf m.html)) = [activationPath] ∧
    activationPath = "/api/v1/auth/verify" ∧
    (initializeRoutes.filter (fun r => r.handler == .verifyEmail)).map
      (fun r => (r.method, r.path)) = [(.get, "/auth/verifyemail")] ∧
    endsWith activationPath "/auth/verifyemail" = false ∧
    initializeRoutes.all (fun r => !(endsWith activationPath r.path)) = true := by
  decide

end Controller
